import Mathlib

/-!
# Verification of the Grace audio output module (`src/grace/audio/audio_output.py`)

This file gives a shallow embedding of the `AudioOutput` class of
`audio_output.py` and proves/refutes the frozen claims about it.

Modelling conventions:
* External effects (the filesystem, `shutil.which`, `subprocess.Popen`,
  `poll`, `wait`, the stdout stream of the engine, the wall clock) are supplied
  by an oracle environment `Env`.  Each call site consumes a counter so the
  oracle can answer each call independently (adversarial scheduling).
* Processes are identified by the value of a spawn counter at the moment
  `subprocess.Popen` is invoked.  Temp files are identified by the value of
  a temp-file counter at the moment `tempfile.NamedTemporaryFile` is invoked
  (`NamedTemporaryFile` always yields a fresh name).
* Python exceptions are values of `Exc`; code that can raise returns
  `Except Exc _` together with the state reached at the raise point
  (Python state mutations survive an exception).  `try/except` blocks of the
  source are translated as matches on those results; an `except Exception`
  clause catches every `Exc` constructor, narrower clauses catch only the
  corresponding constructors.
* The audio `bytearray` is modelled by its length (no claim depends on the
  byte contents); one `stdout.read(4096)` call returns at most 4096 bytes,
  hence the `min · 4096` clamp on the oracle-provided chunk size.
* Thread interleaving: the reader thread of `speak` is the only concurrent
  unit; the main thread waits on it for up to 10 time-units and then uses
  whatever has been buffered.  The `readCut` field of the oracle chooses how many read
  iterations have happened when the main thread proceeds, which covers every
  interleaving of the (GIL-atomic) buffer extensions.
* An observable event trace (`Ev`) records process spawns, cascade waits,
  kills, temp-file creations and deletions, so ordering claims can be stated.
-/

namespace Grace

/-- Kinds of Python exceptions that the modelled code can raise.  All of them
are subclasses of `Exception`, so an `except Exception` clause catches every
constructor; `except (subprocess.SubprocessError, FileNotFoundError)` catches
only `subprocessErr` and `fileNotFound`. -/
inductive Exc where
  | fileNotFound
  | subprocessErr
  | otherErr
  | keyError
  | nameErr
deriving DecidableEq, Repr

/-- Observable events emitted by the modelled code, in program order.
`attemptWait pid q` records a cascade attempt `process.wait(timeout=q)` call;
`spawned pid prog tmp` records a successful `subprocess.Popen` of program
`prog` whose command line references temp file `tmp` (if any). -/
inductive Ev where
  | spawned (pid : Nat) (prog : String) (tmp : Option Nat)
  | spawnFailed (prog : String)
  | mkTemp (t : Nat)
  | unlinked (t : Nat)
  | unlinkFailed (t : Nat)
  | attemptWait (pid : Nat) (timeout : ℚ)
  | killed (pid : Nat)
deriving DecidableEq, Repr

/-- One iteration of the reader loop of `read_output` (`speak`, lines
347-366): `timeOk` is the value of `time.time() - start_time < 30` at the
loop head; `chunk = none` means `stdout.read` raised (caught inside the
thread), `some n` a chunk of `n` bytes (`n = 0` is the end-of-stream read
that breaks the loop). -/
structure ReadItem where
  timeOk : Bool
  chunk : Option Nat
deriving DecidableEq, Repr

/-- Oracle environment: answers of the outside world (filesystem, PATH
lookups, subprocesses, streams), indexed by per-effect call counters. -/
structure Env where
  /-- `shutil.which name` succeeds. -/
  which : String → Bool
  /-- `Path(p).exists()`. -/
  pathExists : String → Bool
  /-- `modelsPath.glob("*.onnx")` raises. -/
  globExc : Bool
  /-- result of `modelsPath.glob("*.onnx")`. -/
  globOnnx : List String
  /-- outcome of the k-th `subprocess.Popen` call: `none` = success,
  `some e` = raises `e`. -/
  spawn : Nat → Option Exc
  /-- k-th `proc.poll()` call: `true` means `poll() is None` (alive). -/
  poll : Nat → Bool
  /-- k-th `proc.wait(timeout=...)` call raises `TimeoutExpired`. -/
  waitTO : Nat → Bool
  /-- `proc.returncode` of process `pid` after it has been waited on. -/
  rc : Nat → Int
  /-- `piper_process.stdin.write/flush` raises. -/
  writeExc : Option Exc
  /-- behaviour of the engine stdout stream, one item per reader iteration. -/
  readItems : List ReadItem
  /-- number of reader iterations completed when the main thread stops
  waiting (`read_complete.wait(timeout=10)`) and proceeds. -/
  readCut : Nat

/-- The configuration dictionaries passed to `AudioOutput.__init__`
(`piper` / `audio` sections). -/
structure Cfg where
  model_path : Option String
  mute : Bool
  sample_rate : Nat

/-- Mutable state of an `AudioOutput` instance together with the modelled
filesystem and the effect counters. -/
structure St where
  /-- the model_path entry of `piper_config` (it is updated by `get_piper_model_path`). -/
  cfgModelPath : Option String
  /-- `self.piper_process` (by pid). -/
  piper : Option Nat
  /-- `self.active_processes`. -/
  active : Finset Nat
  /-- `self.temp_files`. -/
  temp_files : Finset Nat
  /-- temp files currently existing on disk. -/
  fsTemp : Finset Nat
  /-- `self.last_tts_error`. -/
  last_tts_error : Option String
  /-- local variable `tmp_path` of the current `speak` call. -/
  tmpPath : Option Nat
  /-- fresh-name counter for `tempfile.NamedTemporaryFile`. -/
  nextTmp : Nat
  /-- `subprocess.Popen` call counter (used as the pid of a new process). -/
  spawnCtr : Nat
  /-- `poll()` call counter. -/
  pollCtr : Nat
  /-- `wait(timeout=...)` call counter. -/
  waitCtr : Nat
  /-- observable event trace. -/
  trace : List Ev
deriving DecidableEq

/-- `modelsPath` from `grace.utils.common` (an external path constant). -/
def modelsPath : String := "models"

/-- `str(e)` for the modelled exceptions. -/
def excMsg : Exc → String
  | .fileNotFound => "FileNotFoundError"
  | .subprocessErr => "SubprocessError"
  | .otherErr => "Exception"
  | .keyError => "KeyError"
  | .nameErr => "NameError: name process is not defined"

/-- The model candidate list of `get_piper_model_path` (lines 90-99). -/
def modelCandidates : List String :=
  [modelsPath ++ "/cori-high.onnx",
   modelsPath ++ "/en_US-cori-high.onnx",
   modelsPath ++ "/en_US-amy-medium.onnx",
   modelsPath ++ "/en_US-lessac-medium.onnx",
   "/usr/share/piper/voices/en_US-cori-high.onnx",
   "/usr/share/piper/voices/en_US-amy-medium.onnx",
   "/usr/share/piper/voices/en_US-lessac-medium.onnx",
   "/usr/local/share/piper/voices/en_US-cori-high.onnx"]

/-- `get_piper_model_path` (lines 71-117): configured path first, then the
candidate list, then any `*.onnx` file found by globbing the models
directory; updates the model_path entry of `piper_config` when a non-primary location
is used; a glob exception is swallowed (debug log) and yields no model. -/
def get_piper_model_path (env : Env) (s : St) : Option String × St :=
  if env.pathExists (s.cfgModelPath.getD (modelsPath ++ "/cori-high.onnx")) then
    (some (s.cfgModelPath.getD (modelsPath ++ "/cori-high.onnx")), s)
  else
    match modelCandidates.find? env.pathExists with
    | some c => (some c, { s with cfgModelPath := some c })
    | none =>
      if env.globExc then (none, s)
      else
        match env.globOnnx with
        | [] => (none, s)
        | f :: _ => (some f, { s with cfgModelPath := some f })

/-- `_cleanup_piper` (lines 182-200): if a piper process is recorded, poll
it; if alive, `terminate()` then `wait(timeout=2)`, escalating to `kill()` +
`wait()` on timeout; finally unregister it and clear `self.piper_process`.
All exceptions are swallowed (debug log). -/
def cleanup_piper (env : Env) (s : St) : St :=
  match s.piper with
  | none => s
  | some pid =>
    if env.poll s.pollCtr then
      if env.waitTO s.waitCtr then
        { s with pollCtr := s.pollCtr + 1, waitCtr := s.waitCtr + 1,
                 trace := s.trace ++ [.killed pid],
                 active := s.active.erase pid, piper := none }
      else
        { s with pollCtr := s.pollCtr + 1, waitCtr := s.waitCtr + 1,
                 active := s.active.erase pid, piper := none }
    else
      { s with pollCtr := s.pollCtr + 1,
               active := s.active.erase pid, piper := none }

/-- The fresh-start tail of `start_piper` (lines 131-180): clean up any
previous process, resolve the model (fail with "Piper model not found" if
none), check `shutil.which("piper")`, then `subprocess.Popen`; on success
register the process and record it as `self.piper_process`. -/
def start_piper_fresh (env : Env) (s : St) : Bool × St :=
  match get_piper_model_path env (cleanup_piper env s) with
  | (none, s) => (false, { s with last_tts_error := some "Piper model not found" })
  | (some _model, s) =>
    if env.which "piper" then
      match env.spawn s.spawnCtr with
      | none =>
        let pid := s.spawnCtr
        (true, { s with
                  spawnCtr := pid + 1,
                  piper := some pid,
                  active := insert pid s.active,
                  trace := s.trace ++ [.spawned pid "piper" none] })
      | some e =>
        (false, { s with
                   spawnCtr := s.spawnCtr + 1,
                   trace := s.trace ++ [.spawnFailed "piper"],
                   last_tts_error :=
                     some (if e = .fileNotFound then "Piper executable not found"
                           else excMsg e) })
    else (false, { s with last_tts_error := some "Piper executable not found" })

/-- `start_piper` (lines 119-180): if the recorded piper process polls as
alive, succeed immediately; otherwise start afresh. -/
def start_piper (env : Env) (s : St) : Bool × St :=
  match s.piper with
  | some _ =>
    if env.poll s.pollCtr then (true, { s with pollCtr := s.pollCtr + 1 })
    else start_piper_fresh env { s with pollCtr := s.pollCtr + 1 }
  | none => start_piper_fresh env s

/-- The per-attempt timeout of both cascades (lines 251 and 433):
`min(30, max(5, len(text) * 0.1))`, with `0.1` read as the exact rational
1/10. -/
def timeoutFor (n : Nat) : ℚ := min 30 (max 5 ((n : ℚ) * (1/10)))

/-- A cascade attempt `process.wait(timeout=t)` call with the
`except subprocess.TimeoutExpired: process.kill(); process.wait()` handler
(lines 253-259 and 435-441). -/
def doAttemptWait (env : Env) (pid : Nat) (t : ℚ) (s : St) : St :=
  if env.waitTO s.waitCtr then
    { s with waitCtr := s.waitCtr + 1,
             trace := s.trace ++ [.attemptWait pid t, .killed pid] }
  else
    { s with waitCtr := s.waitCtr + 1, trace := s.trace ++ [.attemptWait pid t] }

/-- `try: os.unlink(tmp); self.temp_files.remove(tmp) / if tmp in
self.temp_files: self.temp_files.remove(tmp); except: pass` (lines 261-266,
457-463 and 482-488).  If the file is gone, `os.unlink` raises and the
handler swallows it; a `KeyError` from `set.remove` is likewise swallowed,
and in that case the set was unchanged anyway, so both source variants have
the same state effect. -/
def tryUnlinkRemove (t : Nat) (s : St) : St :=
  if t ∈ s.fsTemp then
    { s with fsTemp := s.fsTemp.erase t,
             temp_files := s.temp_files.erase t,
             trace := s.trace ++ [.unlinked t] }
  else { s with trace := s.trace ++ [.unlinkFailed t] }

/-- The attempt loop of `speak_fallback` (lines 238-295).  `lastP` is the
Python loop variable `process` from the previous iteration (unbound on the
first one).  Per iteration: `Popen`; on success register, wait (killing on
timeout), unlink the temp file, unregister, and return on exit code 0.  A
`SubprocessError`/`FileNotFoundError` from `Popen` runs the handler, which
dereferences `process` — a `NameError` on the first iteration (propagating
to the outer handler of `speak_fallback`); any other `Popen` exception
propagates directly.  On exhaustion, set the last error and delete the temp
file if it still exists. -/
def fallbackLoop (env : Env) (textLen : Nat) (t : Nat) :
    List String → Option Nat → St → Except Exc Bool × St
  | [], _, s =>
    if t ∈ s.fsTemp then
      (.ok false, { s with last_tts_error := some "All TTS fallbacks failed",
                           fsTemp := s.fsTemp.erase t,
                           temp_files := s.temp_files.erase t,
                           trace := s.trace ++ [.unlinked t] })
    else (.ok false, { s with last_tts_error := some "All TTS fallbacks failed" })
  | prog :: rest, lastP, s =>
    match env.spawn s.spawnCtr with
    | some e =>
      let s := { s with spawnCtr := s.spawnCtr + 1,
                        trace := s.trace ++ [.spawnFailed prog] }
      if e = .subprocessErr ∨ e = .fileNotFound then
        match lastP with
        | none => (.error .nameErr, s)
        | some p =>
          fallbackLoop env textLen t rest (some p) { s with active := s.active.erase p }
      else (.error e, s)
    | none =>
      let pid := s.spawnCtr
      let s := { s with spawnCtr := pid + 1,
                        active := insert pid s.active,
                        trace := s.trace ++ [.spawned pid prog (some t)] }
      let s := doAttemptWait env pid (timeoutFor textLen) s
      let s := tryUnlinkRemove t s
      let s := { s with active := s.active.erase pid }
      if env.rc pid = 0 then (.ok true, s)
      else fallbackLoop env textLen t rest (some pid) s

/-- `speak_fallback` (lines 202-300): check for `espeak`/`festival` on the
PATH; if neither is present, record the error and fail; otherwise write the
text to a fresh tracked temp file and run the attempt loop (espeak first,
then festival via `bash -c "cat ... | festival --tts"`).  The whole body is
wrapped in `try/except Exception`, which records `str(e)` and returns
`False`. -/
def speak_fallback (env : Env) (text : String) (s : St) : Bool × St :=
  if ¬ (env.which "espeak" ∨ env.which "festival") then
    (false, { s with last_tts_error := some "No TTS fallbacks available" })
  else
    match fallbackLoop env text.length s.nextTmp
        ((if env.which "espeak" then ["espeak"] else [])
          ++ (if env.which "festival" then ["bash"] else []))
        none
        { s with nextTmp := s.nextTmp + 1,
                 temp_files := insert s.nextTmp s.temp_files,
                 fsTemp := insert s.nextTmp s.fsTemp,
                 trace := s.trace ++ [.mkTemp s.nextTmp] } with
    | (.ok b, s2) => (b, s2)
    | (.error e, s2) => (false, { s2 with last_tts_error := some (excMsg e) })

/-- The 10 MiB cap of `read_output` (line 361). -/
def CAP : Nat := 10 * 1024 * 1024

/-- The reader loop of `read_output` (lines 355-362), on buffer lengths:
while the 30-second deadline has not passed, read a chunk of at most 4096
bytes; an empty chunk (or a read exception, caught by the thread) ends the
loop; after extending the buffer, stop if its length exceeds the 10 MiB
cap.  An exhausted item list is an end-of-stream read. -/
def read_loop : List ReadItem → Nat → Nat
  | [], acc => acc
  | it :: rest, acc =>
    if ¬ it.timeOk then acc
    else
      match it.chunk with
      | none => acc
      | some 0 => acc
      | some (n + 1) =>
        if CAP < acc + min (n + 1) 4096 then acc + min (n + 1) 4096
        else read_loop rest (acc + min (n + 1) 4096)

/-- The audio-player attempt loop of `speak` (lines 417-455).  Like the
fallback loop, but the temp file is not touched inside the loop, and the
handler is a bare `except Exception` — which still dereferences the loop
variable `process`, so a `Popen` exception on the first iteration turns
into a `NameError` that propagates to the outer handler of `speak`. -/
def playerLoop (env : Env) (textLen : Nat) (t : Nat) :
    List String → Option Nat → St → Except Exc Bool × St
  | [], _, s => (.ok false, s)
  | prog :: rest, lastP, s =>
    match env.spawn s.spawnCtr with
    | some _ =>
      let s := { s with spawnCtr := s.spawnCtr + 1,
                        trace := s.trace ++ [.spawnFailed prog] }
      match lastP with
      | none => (.error .nameErr, s)
      | some p =>
        playerLoop env textLen t rest (some p) { s with active := s.active.erase p }
    | none =>
      let pid := s.spawnCtr
      let s := { s with spawnCtr := pid + 1,
                        active := insert pid s.active,
                        trace := s.trace ++ [.spawned pid prog (some t)] }
      let s := doAttemptWait env pid (timeoutFor textLen) s
      let s := { s with active := s.active.erase pid }
      if env.rc pid = 0 then (.ok true, s)
      else playerLoop env textLen t rest (some pid) s

/-- The buffered audio length obtained by the reader thread of `speak`
(lines 344-374): the thread first health-checks the engine (no engine or a
dead poll yields an empty buffer), then runs the read loop; the main thread
waits up to 10 time-units and proceeds with the data of the first `readCut` iterations. -/
def speakAudioLen (env : Env) (s : St) : Nat :=
  match s.piper with
  | none => 0
  | some _ =>
    if env.poll s.pollCtr then read_loop (env.readItems.take env.readCut) 0
    else 0

/-- The poll performed by the reader thread consumes one poll answer. -/
def speakPostPoll (_env : Env) (s : St) : St :=
  match s.piper with
  | none => s
  | some _ => { s with pollCtr := s.pollCtr + 1 }

/-- Creation of the tracked temp file holding the raw audio (lines
377-382), also recording it in the local `tmp_path` variable. -/
def mkAudioTemp (s : St) : St :=
  { s with nextTmp := s.nextTmp + 1,
           temp_files := insert s.nextTmp s.temp_files,
           fsTemp := insert s.nextTmp s.fsTemp,
           tmpPath := some s.nextTmp,
           trace := s.trace ++ [.mkTemp s.nextTmp] }

/-- The availability-filtered player list of `speak` (lines 384-415). -/
def playersFor (env : Env) : List String :=
  (if env.which "aplay" then ["aplay"] else [])
    ++ (if env.which "play" then ["play"] else [])
    ++ (if env.which "paplay" then ["paplay"] else [])

/-- Lines 336-475 of `speak`: write the text to the stdin of piper (may raise),
obtain the buffered audio via the reader thread, and then: no audio → text
fallback; audio → spill it to a tracked temp file, try the available
players in order, delete the temp file once the player cascade concludes,
and fall back to the text cascade if no player succeeded.  (The embedding
is pure, so the sequential bindings of the source are written as repeated
applications of the same stage functions.) -/
def speakWrite (env : Env) (text : String) (s : St) : Except Exc Bool × St :=
  match env.writeExc with
  | some e => (.error e, s)
  | none =>
    if speakAudioLen env s = 0 then
      (Except.ok (speak_fallback env text (speakPostPoll env s)).1,
       (speak_fallback env text (speakPostPoll env s)).2)
    else
      match playerLoop env text.length (speakPostPoll env s).nextTmp
          (playersFor env) none (mkAudioTemp (speakPostPoll env s)) with
      | (.error e, s2) => (.error e, s2)
      | (.ok success, s2) =>
        if success then
          (.ok true, tryUnlinkRemove (speakPostPoll env s).nextTmp s2)
        else
          (Except.ok (speak_fallback env text
              (tryUnlinkRemove (speakPostPoll env s).nextTmp s2)).1,
           (speak_fallback env text
              (tryUnlinkRemove (speakPostPoll env s).nextTmp s2)).2)

/-- The body of the `try` block of `speak` (lines 328-475): under the lock,
health-check the engine and restart it if dead (falling back to the text
cascade if the restart fails), then write/read/play via `speakWrite`. -/
def speakTry (env : Env) (text : String) (s : St) : Except Exc Bool × St :=
  match s.piper with
  | none =>
    if (start_piper env s).1 then speakWrite env text (start_piper env s).2
    else
      (Except.ok (speak_fallback env text (start_piper env s).2).1,
       (speak_fallback env text (start_piper env s).2).2)
  | some _ =>
    if env.poll s.pollCtr then
      speakWrite env text { s with pollCtr := s.pollCtr + 1 }
    else
      if (start_piper env { s with pollCtr := s.pollCtr + 1 }).1 then
        speakWrite env text (start_piper env { s with pollCtr := s.pollCtr + 1 }).2
      else
        (Except.ok (speak_fallback env text
            (start_piper env { s with pollCtr := s.pollCtr + 1 }).2).1,
         (speak_fallback env text
            (start_piper env { s with pollCtr := s.pollCtr + 1 }).2).2)

/-- The outer `except Exception` handler of `speak` (lines 477-488):
record `str(e)` as the last error and delete the audio temp file if this
call created one. -/
def speakHandler (e : Exc) (s : St) : St :=
  match s.tmpPath with
  | none => { s with last_tts_error := some (excMsg e) }
  | some t => tryUnlinkRemove t { s with last_tts_error := some (excMsg e) }

/-- `speak` (lines 302-491): empty text returns `False` immediately; the
mute flag returns `True`; otherwise ensure the engine is running (falling
back to the text cascade if it cannot start) and run the `try` body; the
handler records the error, cleans the temp file up and tries the text
fallback.  The `Except` result makes the "no exception escapes `speak`"
property a statement rather than a typing accident: any unhandled `Exc`
would surface as `.error`. -/
def speak (env : Env) (cfg : Cfg) (text : String) (s : St) :
    Except Exc (Bool × St) :=
  if text = "" then .ok (false, s)
  else if cfg.mute then .ok (true, s)
  else
    if (start_piper env s).1 then
      match speakTry env text { (start_piper env s).2 with tmpPath := none } with
      | (.ok b, s2) => .ok (b, s2)
      | (.error e, s2) => .ok (speak_fallback env text (speakHandler e s2))
    else .ok (speak_fallback env text (start_piper env s).2)

/-- Total wrapper of `speak` (defaulting to `(false, s)` in the — provably
impossible — error case), convenient for stating trace/tracker properties. -/
def speakRun (env : Env) (cfg : Cfg) (text : String) (s : St) : Bool × St :=
  (speak env cfg text s).toOption.getD (false, s)

/-- The process sweep of `_cleanup_all_resources` (lines 577-588): poll each
tracked process; if alive, `terminate()` then `wait(timeout=1)`, escalating
to `kill()` + `wait()`; every exception is swallowed. -/
def cleanupProcs (env : Env) : List Nat → St → St
  | [], s => s
  | p :: rest, s =>
    if env.poll s.pollCtr then
      if env.waitTO s.waitCtr then
        cleanupProcs env rest
          { s with pollCtr := s.pollCtr + 1, waitCtr := s.waitCtr + 1,
                   trace := s.trace ++ [.killed p] }
      else
        cleanupProcs env rest
          { s with pollCtr := s.pollCtr + 1, waitCtr := s.waitCtr + 1 }
    else cleanupProcs env rest { s with pollCtr := s.pollCtr + 1 }

/-- `_cleanup_temp_files` (lines 561-570): for each tracked temp file,
unlink it if it still exists (exceptions logged and swallowed) and always
discard it from the tracking set. -/
def cleanup_temp_files : List Nat → St → St
  | [], s => s
  | tm :: rest, s =>
    if tm ∈ s.fsTemp then
      cleanup_temp_files rest
        { s with fsTemp := s.fsTemp.erase tm,
                 temp_files := s.temp_files.erase tm,
                 trace := s.trace ++ [.unlinked tm] }
    else cleanup_temp_files rest { s with temp_files := s.temp_files.erase tm }

/-- The state after `_cleanup_all_resources` has cleaned up piper, swept the
tracked processes and cleared the process set (lines 574-591).  Iteration
order of the Python sets is modelled as ascending pid order. -/
def sweepState (env : Env) (s : St) : St :=
  { cleanupProcs env ((cleanup_piper env s).active.sort (· ≤ ·))
      (cleanup_piper env s) with active := ∅ }

/-- `_cleanup_all_resources` (lines 572-594): clean up piper, sweep the
tracked processes, clear the process set, then clean up the temp files. -/
def cleanup_all_resources (env : Env) (s : St) : St :=
  cleanup_temp_files ((sweepState env s).temp_files.sort (· ≤ ·)) (sweepState env s)

/-- `stop` (lines 596-599). -/
def stop (env : Env) (s : St) : St :=
  cleanup_all_resources env s

/-- A fresh `AudioOutput` state (after `__init__` with an empty config and
no model cached). -/
def st0 : St :=
  { cfgModelPath := none, piper := none, active := ∅, temp_files := ∅,
    fsTemp := ∅, last_tts_error := none, tmpPath := none, nextTmp := 0,
    spawnCtr := 0, pollCtr := 0, waitCtr := 0, trace := [] }

/-- A default (non-muted) configuration. -/
def cfg0 : Cfg := { model_path := none, mute := false, sample_rate := 22050 }

/-- A muted configuration. -/
def cfgMute : Cfg := { model_path := none, mute := true, sample_rate := 22050 }

/-- Process-tracking relation between the states before and after an
operation: any process tracked afterwards was either already tracked before
(and is not the engine process of the pre-state) or is the engine process
recorded in the post-state.  In particular every non-engine process registered during the
operation has been unregistered again. -/
def SPrel (s s' : St) : Prop :=
  ∀ pid, pid ∈ s'.active → (pid ∈ s.active ∧ s.piper ≠ some pid) ∨ s'.piper = some pid

/-- An event is timeout-correct for text length `n` if, whenever it is a
cascade `wait(timeout=q)` event, `q` is the cascade timeout for `n`. -/
def evOk (n : Nat) : Ev → Prop :=
  fun ev => ∀ pid q, ev = Ev.attemptWait pid q → q = timeoutFor n

/-- Trace relation: the operation only appended events, all of them
timeout-correct for text length `n`. -/
def TW (n : Nat) (s s' : St) : Prop :=
  ∃ tl, s'.trace = s.trace ++ tl ∧ ∀ ev ∈ tl, evOk n ev

/-- Does this event record a spawned process whose command line references
temp file `t`? -/
def usesTmp (t : Nat) : Ev → Bool
  | .spawned _ _ (some u) => u == t
  | _ => false

/-- `true` iff the trace contains a successful deletion of some temp file
followed (later) by the spawn of a cascade attempt that references that same
file. -/
def attemptAfterDelete : List Ev → Bool
  | [] => false
  | .unlinked t :: rest => rest.any (usesTmp t) || attemptAfterDelete rest
  | _ :: rest => attemptAfterDelete rest

/-- Environment for the C4 run: `espeak` and `festival` both on the PATH,
every `Popen` succeeds, no waits time out, the espeak attempt (pid 0) exits
with code 1 and every other process exits with code 0. -/
def envC4 : Env :=
  { which := fun x => x == "espeak" || x == "festival",
    pathExists := fun _ => false, globExc := false, globOnnx := [],
    spawn := fun _ => none, poll := fun _ => true, waitTO := fun _ => false,
    rc := fun p => if p = 0 then 1 else 0, writeExc := none,
    readItems := [], readCut := 0 }

/-- Environment for the C1/C2 runs: model present, `piper` and `aplay` on
the PATH, every spawn succeeds, the engine stays alive, it produces one
100-byte chunk, and the player exits with code 0. -/
def envC2 : Env :=
  { which := fun x => x == "piper" || x == "aplay",
    pathExists := fun _ => true, globExc := false, globOnnx := [],
    spawn := fun _ => none, poll := fun _ => true, waitTO := fun _ => false,
    rc := fun _ => 0, writeExc := none,
    readItems := [⟨true, some 100⟩], readCut := 1 }

/-- Environment for the C3 run: model and all three players present; the
`aplay` attempt (pid 1) exits with code 1, the `play` `Popen` (spawn index 2)
raises, and the `paplay` attempt (pid 3) succeeds. -/
def envC3 : Env :=
  { which := fun x => x == "piper" || x == "aplay" || x == "play" || x == "paplay",
    pathExists := fun _ => true, globExc := false, globOnnx := [],
    spawn := fun k => if k = 2 then some .otherErr else none,
    poll := fun _ => true, waitTO := fun _ => false,
    rc := fun p => if p = 3 then 0 else 1, writeExc := none,
    readItems := [⟨true, some 100⟩], readCut := 1 }

/-- Environment for the C7/C10 witnesses: nothing on the PATH, no model file
anywhere, the glob finds nothing. -/
def envC7 : Env :=
  { which := fun _ => false,
    pathExists := fun _ => false, globExc := false, globOnnx := [],
    spawn := fun _ => none, poll := fun _ => true, waitTO := fun _ => false,
    rc := fun _ => 0, writeExc := none,
    readItems := [], readCut := 0 }

/-- Helper: `speak` always returns `.ok` — the outer `except Exception`
handler catches every exception kind the body can raise. -/
theorem speak_total (env : Env) (cfg : Cfg) (text : String) (s : St) :
    ∃ r, speak env cfg text s = Except.ok r := by
  unfold speak
  split
  · exact ⟨_, rfl⟩
  split
  · exact ⟨_, rfl⟩
  split
  · split
    · exact ⟨_, rfl⟩
    · exact ⟨_, rfl⟩
  · exact ⟨_, rfl⟩

/-- C1 (amended): `speak` with the empty string returns failure (`False`),
not success, for every configuration and state; it performs no effect at
all (the state — tracker, trace, counters — is returned unchanged). -/
theorem c1_empty_text_noop (env : Env) (cfg : Cfg) (s : St) :
    speak env cfg "" s = Except.ok (false, s) := by
  unfold speak
  simp

/-- C1 counterexample: at a concrete configuration and a fresh instance,
`speak ""` returns `false`, contradicting the claimed success. -/
theorem c1_cex : (speakRun envC2 cfg0 "" st0).1 = false := rfl

/-- C4 (code bug): with `espeak` and `festival` both installed and the
espeak attempt exiting nonzero, the text-fallback cascade deletes its temp
file immediately after the first waited attempt and then spawns the
festival attempt referencing the already-deleted file — and reports
overall success. -/
theorem c4_delete_midcascade :
    (speak_fallback envC4 "hello" st0).1 = true ∧
    attemptAfterDelete (speak_fallback envC4 "hello" st0).2.trace = true := by
  exact ⟨rfl, rfl⟩

/-- C5 (amended): the reader loop, started on an empty buffer (or any
buffer at most the cap), never exceeds the 10 MiB cap by more than one
chunk (4096 bytes), and reading stops as soon as the buffer strictly
exceeds the cap: the iteration that crosses the cap is the last one, and
the buffer is not truncated. -/
theorem c5_cap_bound :
    (∀ items acc, acc ≤ CAP → read_loop items acc ≤ CAP + 4096) ∧
    (∀ it rest acc n, it.timeOk = true → it.chunk = some (n + 1) →
      CAP < acc + min (n + 1) 4096 →
      read_loop (it :: rest) acc = acc + min (n + 1) 4096) := by
  constructor
  · intro items
    induction items with
    | nil =>
      intro acc h
      exact le_trans h (Nat.le_add_right _ _)
    | cons it rest ih =>
      intro acc h
      unfold read_loop
      split
      · exact le_trans h (Nat.le_add_right _ _)
      split
      · exact le_trans h (Nat.le_add_right _ _)
      · exact le_trans h (Nat.le_add_right _ _)
      next n heq =>
        split
        · exact Nat.add_le_add h (min_le_right _ _)
        next hlt => exact ih _ (Nat.le_of_not_lt hlt)
  · intro it rest acc n ht hc hcap
    unfold read_loop
    rw [ht, hc]
    simp [hcap]

/-- C5 witness for `c5_cap_bound`. -/
theorem c5_cap_bound_witness :
    read_loop [] 0 ≤ CAP + 4096 ∧
    read_loop [⟨true, some 4096⟩] 10485757 = 10485757 + min 4096 4096 :=
  ⟨c5_cap_bound.1 [] 0 (by decide),
   c5_cap_bound.2 ⟨true, some 4096⟩ [] 10485757 4095 rfl rfl (by decide)⟩

set_option maxRecDepth 100000 in
/-- C5 counterexample: a stream of 2561 full 4096-byte chunks drives the
buffer to 10489856 bytes, strictly more than the 10 MiB cap (10485760),
refuting "the AudioBuffer never exceeds 10 MiB" and "truncated at exactly
the cap". -/
theorem c5_cex : CAP < read_loop (List.replicate 2561 ⟨true, some 4096⟩) 0 := by
  decide

/-- C6 (amended): with the mute flag set, `speak` returns success for every
non-empty text and performs no effect at all (no subprocess work, the
tracker and the whole state unchanged); empty text still returns `false`
(the empty-text guard precedes the mute check). -/
theorem c6_mute_noop (env : Env) (cfg : Cfg) (text : String) (s : St)
    (hm : cfg.mute = true) (ht : ¬ text = "") :
    speak env cfg text s = Except.ok (true, s) := by
  unfold speak
  rw [if_neg ht, hm]
  simp

/-- C6 witness for `c6_mute_noop`. -/
theorem c6_mute_noop_witness : speak envC2 cfgMute "x" st0 = Except.ok (true, st0) :=
  c6_mute_noop envC2 cfgMute "x" st0 rfl (by decide)

/-- C6 counterexample: with mute set and the empty string, `speak` returns
`false`, contradicting "returns success for every input text". -/
theorem c6_cex :
    cfgMute.mute = true ∧ (speakRun envC2 cfgMute "" st0).1 = false :=
  ⟨rfl, rfl⟩

/-- C7 (confirmed): if no model file exists at any searched location (and
the glob finds no `.onnx` file), `start_piper` on an instance with no live
engine fails, records "Piper model not found" as the last error, and
changes nothing else — in particular it spawns no process. -/
theorem c7_model_not_found (env : Env) (s : St)
    (hex : ∀ p, env.pathExists p = false) (hg : env.globOnnx = [])
    (hp : s.piper = none) :
    start_piper env s =
      (false, { s with last_tts_error := some "Piper model not found" }) := by
  have hclean : cleanup_piper env s = s := by
    unfold cleanup_piper
    rw [hp]
  have hfind : modelCandidates.find? env.pathExists = none := by
    rw [List.find?_eq_none]
    intro x _
    simp [hex]
  have hmodel : get_piper_model_path env s = (none, s) := by
    unfold get_piper_model_path
    simp only [hex, Bool.false_eq_true, if_false, hfind, hg]
    split
    · rfl
    · rfl
  unfold start_piper
  rw [hp]
  show start_piper_fresh env s = _
  unfold start_piper_fresh
  simp only [hclean, hmodel, hp]

/-- C7 witness for `c7_model_not_found`. -/
theorem c7_model_not_found_witness :
    start_piper envC7 st0 =
      (false, { st0 with last_tts_error := some "Piper model not found" }) :=
  c7_model_not_found envC7 st0 (fun _ => rfl) rfl rfl

/-- C10 (confirmed): if neither `espeak` nor `festival` is on the PATH,
`speak_fallback` fails, records "No TTS fallbacks available", and changes
nothing else — no temp file is created and no process is spawned. -/
theorem c10_no_fallbacks (env : Env) (text : String) (s : St)
    (he : env.which "espeak" = false) (hf : env.which "festival" = false) :
    speak_fallback env text s =
      (false, { s with last_tts_error := some "No TTS fallbacks available" }) := by
  unfold speak_fallback
  rw [he, hf]
  simp

/-- C10 witness for `c10_no_fallbacks`. -/
theorem c10_no_fallbacks_witness :
    speak_fallback envC7 "hello" st0 =
      (false, { st0 with last_tts_error := some "No TTS fallbacks available" }) :=
  c10_no_fallbacks envC7 "hello" st0 rfl rfl

/-- C3 (amended): `speak` never raises to its caller — for every
configuration, text and behaviour of the spawned subprocesses and streams
it returns an `.ok` boolean result; every internal exception is caught by
some handler on the way. -/
theorem c3_never_raises (env : Env) (cfg : Cfg) (text : String) (s : St) :
    ∃ r, speak env cfg text s = Except.ok r :=
  speak_total env cfg text s

/-- C3 counterexample: a run in which an internal failure (the `play`
`Popen` raising, visible as the `spawnFailed "play"` event) is caught and
converted but never recorded: the call returns success and the last error
is still `none`.  This refutes "every internal failure is ... recorded as
the last error". -/
theorem c3_cex :
    (speakRun envC3 cfg0 "hi" st0).1 = true ∧
    (speakRun envC3 cfg0 "hi" st0).2.last_tts_error = none ∧
    Ev.spawnFailed "play" ∈ (speakRun envC3 cfg0 "hi" st0).2.trace := by
  refine ⟨rfl, rfl, ?_⟩
  decide

/-- Helper: `cleanup_piper` always leaves no recorded engine process. -/
theorem cleanup_piper_piper (env : Env) (s : St) :
    (cleanup_piper env s).piper = none := by
  unfold cleanup_piper
  split
  next h => exact h
  next x pid h =>
    split
    · split <;> rfl
    · rfl

/-- Helper: the process sweep touches only the effect counters and the
trace. -/
theorem cleanupProcs_fields (env : Env) (ps : List Nat) (s : St) :
    (cleanupProcs env ps s).piper = s.piper ∧
    (cleanupProcs env ps s).active = s.active ∧
    (cleanupProcs env ps s).temp_files = s.temp_files ∧
    (cleanupProcs env ps s).fsTemp = s.fsTemp := by
  induction ps generalizing s with
  | nil => exact ⟨rfl, rfl, rfl, rfl⟩
  | cons p rest ih =>
    unfold cleanupProcs
    split
    · split
      · simpa using ih _
      · simpa using ih _
    · simpa using ih _

/-- Helper: the temp-file sweep does not touch the engine or the process
tracker. -/
theorem cleanup_temp_files_fields (ts : List Nat) (s : St) :
    (cleanup_temp_files ts s).piper = s.piper ∧
    (cleanup_temp_files ts s).active = s.active := by
  induction ts generalizing s with
  | nil => exact ⟨rfl, rfl⟩
  | cons tm rest ih =>
    unfold cleanup_temp_files
    split
    · simpa using ih _
    · simpa using ih _

/-- Helper: sweeping a list that covers every tracked temp file leaves the
tracking set empty. -/
theorem cleanup_temp_files_empties (ts : List Nat) (s : St)
    (h : ∀ a ∈ s.temp_files, a ∈ ts) :
    (cleanup_temp_files ts s).temp_files = ∅ := by
  induction ts generalizing s with
  | nil =>
    have he : s.temp_files = ∅ :=
      Finset.eq_empty_iff_forall_not_mem.mpr (fun a ha => by simpa using h a ha)
    simpa [cleanup_temp_files] using he
  | cons tm rest ih =>
    unfold cleanup_temp_files
    have hsub : ∀ a ∈ s.temp_files.erase tm, a ∈ rest := by
      intro a ha
      rw [Finset.mem_erase] at ha
      rcases List.mem_cons.mp (h a ha.2) with h1 | h1
      · exact absurd h1 ha.1
      · exact h1
    split
    · exact ih _ hsub
    · exact ih _ hsub

/-- Helper: after `stop`, the engine is cleared and both tracking sets are
empty. -/
theorem stop_clears (env : Env) (s : St) :
    (stop env s).piper = none ∧ (stop env s).active = ∅ ∧
    (stop env s).temp_files = ∅ := by
  unfold stop cleanup_all_resources
  obtain ⟨hcp, hca⟩ := cleanup_temp_files_fields
    ((sweepState env s).temp_files.sort (· ≤ ·)) (sweepState env s)
  refine ⟨?_, ?_, ?_⟩
  · rw [hcp]
    unfold sweepState
    have := (cleanupProcs_fields env
      ((cleanup_piper env s).active.sort (· ≤ ·)) (cleanup_piper env s)).1
    simpa [this] using cleanup_piper_piper env s
  · rw [hca]
    rfl
  · exact cleanup_temp_files_empties _ _ (fun a ha => (Finset.mem_sort _).mpr ha)

/-- Helper: `{s with active := ∅}` is `s` itself when the tracker is
already empty. -/
theorem st_update_active_self (s : St) (h : s.active = ∅) :
    { s with active := ∅ } = s := by
  cases s
  simp_all

/-- Helper: `stop` is the identity on a state whose engine is cleared and
whose tracking sets are empty — the second call performs no poll, wait,
kill or unlink at all. -/
theorem stop_fix (env : Env) (s : St)
    (hp : s.piper = none) (ha : s.active = ∅) (ht : s.temp_files = ∅) :
    stop env s = s := by
  have hclean : cleanup_piper env s = s := by
    unfold cleanup_piper
    rw [hp]
  have hsweep : sweepState env s = s := by
    unfold sweepState
    rw [hclean, ha, Finset.sort_empty]
    exact st_update_active_self s ha
  unfold stop cleanup_all_resources
  rw [hsweep, ht, Finset.sort_empty]
  rfl

/-- Helper: `SPrel` is reflexive. -/
theorem SPrel_refl (s : St) : SPrel s s := by
  intro pid h
  by_cases hp : s.piper = some pid
  · exact Or.inr hp
  · exact Or.inl ⟨h, hp⟩

/-- Helper: an operation that only removes tracked processes and keeps the
engine field satisfies `SPrel`. -/
theorem SPrel_of_sub {s s' : St} (ha : s'.active ⊆ s.active)
    (hp : s'.piper = s.piper) : SPrel s s' := by
  intro pid h
  by_cases hq : s.piper = some pid
  · exact Or.inr (hp.trans hq)
  · exact Or.inl ⟨ha h, hq⟩

/-- Helper: `SPrel` composes. -/
theorem SPrel_trans {s1 s2 s3 : St} (h12 : SPrel s1 s2) (h23 : SPrel s2 s3) :
    SPrel s1 s3 := by
  intro pid h
  rcases h23 pid h with ⟨h2, hne2⟩ | hr
  · rcases h12 pid h2 with ⟨h1, hne1⟩ | hr1
    · exact Or.inl ⟨h1, hne1⟩
    · exact absurd hr1 hne2
  · exact Or.inr hr

/-- Helper: erasing the current engine process from the tracker satisfies
`SPrel`. -/
theorem SPrel_erase_piper {s : St} {pid : Nat} (h : s.piper = some pid)
    (s' : St) (ha : s'.active = s.active.erase pid) : SPrel s s' := by
  intro q hq
  rw [ha, Finset.mem_erase] at hq
  refine Or.inl ⟨hq.2, ?_⟩
  rw [h]
  intro hc
  exact hq.1 ((Option.some.injEq _ _).mp hc).symm

/-- Helper: registering a fresh process that becomes the engine satisfies
`SPrel` relative to any `SPrel`-predecessor with no recorded engine. -/
theorem SPrel_insert {s s2 : St} (h : SPrel s s2) (hpn : s2.piper = none)
    {pid : Nat} {f : St} (hfa : f.active = insert pid s2.active)
    (hfp : f.piper = some pid) : SPrel s f := by
  intro q hq
  rw [hfa, Finset.mem_insert] at hq
  rcases hq with rfl | hq
  · exact Or.inr hfp
  · rcases h q hq with hl | hr
    · exact Or.inl hl
    · rw [hpn] at hr
      cases hr

/-- Helper: `cleanup_piper` satisfies `SPrel`. -/
theorem cleanup_piper_SP (env : Env) (s : St) : SPrel s (cleanup_piper env s) := by
  unfold cleanup_piper
  split
  next h => exact SPrel_refl s
  next x pid h =>
    split
    · split
      · exact SPrel_erase_piper h _ rfl
      · exact SPrel_erase_piper h _ rfl
    · exact SPrel_erase_piper h _ rfl

/-- Helper: `get_piper_model_path` only touches the cached config path. -/
theorem get_piper_model_path_fields (env : Env) (s : St) :
    ((get_piper_model_path env s).2).active = s.active ∧
    ((get_piper_model_path env s).2).piper = s.piper ∧
    ((get_piper_model_path env s).2).trace = s.trace := by
  unfold get_piper_model_path
  split
  · exact ⟨rfl, rfl, rfl⟩
  · split
    · exact ⟨rfl, rfl, rfl⟩
    · split
      · exact ⟨rfl, rfl, rfl⟩
      · split <;> exact ⟨rfl, rfl, rfl⟩

/-- Helper: `start_piper_fresh` satisfies `SPrel`: it may deregister the
old engine and registers at most the newly spawned engine. -/
theorem start_piper_fresh_SP (env : Env) (s : St) :
    SPrel s (start_piper_fresh env s).2 := by
  have hclean := cleanup_piper_SP env s
  have hpn := cleanup_piper_piper env s
  obtain ⟨hma, hmp, -⟩ := get_piper_model_path_fields env (cleanup_piper env s)
  have hstep : SPrel s ((get_piper_model_path env (cleanup_piper env s)).2) :=
    SPrel_trans hclean (SPrel_of_sub (by rw [hma]) hmp)
  have hstepn : ((get_piper_model_path env (cleanup_piper env s)).2).piper = none :=
    hmp.trans hpn
  unfold start_piper_fresh
  split
  next x s3 heq =>
    rw [heq] at hstep
    exact SPrel_trans hstep (SPrel_of_sub subset_rfl rfl)
  next x mdl s3 heq =>
    rw [heq] at hstep hstepn
    split
    · split
      · exact SPrel_insert hstep hstepn rfl rfl
      · exact SPrel_trans hstep (SPrel_of_sub subset_rfl rfl)
    · exact SPrel_trans hstep (SPrel_of_sub subset_rfl rfl)

/-- Helper: `start_piper` satisfies `SPrel`. -/
theorem start_piper_SP (env : Env) (s : St) : SPrel s (start_piper env s).2 := by
  unfold start_piper
  split
  next x pid h =>
    split
    · exact SPrel_of_sub subset_rfl rfl
    · exact SPrel_trans (@SPrel_of_sub s { s with pollCtr := s.pollCtr + 1 }
        subset_rfl rfl) (start_piper_fresh_SP env _)
  next h => exact start_piper_fresh_SP env s

/-- Helper: a cascade wait does not touch the tracker. -/
theorem doAttemptWait_active (env : Env) (pid : Nat) (q : ℚ) (s : St) :
    (doAttemptWait env pid q s).active = s.active := by
  unfold doAttemptWait
  split <;> rfl

/-- Helper: a cascade wait does not touch the engine field. -/
theorem doAttemptWait_piper (env : Env) (pid : Nat) (q : ℚ) (s : St) :
    (doAttemptWait env pid q s).piper = s.piper := by
  unfold doAttemptWait
  split <;> rfl

/-- Helper: the guarded unlink does not touch the tracker. -/
theorem tryUnlinkRemove_active (t : Nat) (s : St) :
    (tryUnlinkRemove t s).active = s.active := by
  unfold tryUnlinkRemove
  split <;> rfl

/-- Helper: the guarded unlink does not touch the engine field. -/
theorem tryUnlinkRemove_piper (t : Nat) (s : St) :
    (tryUnlinkRemove t s).piper = s.piper := by
  unfold tryUnlinkRemove
  split <;> rfl

/-- Helper: the text-fallback attempt loop only removes processes from the
tracker (every attempt it registers is deregistered again) and never
touches the engine field. -/
theorem fallbackLoop_state (env : Env) (n t : Nat) (cmds : List String)
    (lp : Option Nat) (s : St) :
    ((fallbackLoop env n t cmds lp s).2).active ⊆ s.active ∧
    ((fallbackLoop env n t cmds lp s).2).piper = s.piper := by
  induction cmds generalizing lp s with
  | nil =>
    unfold fallbackLoop
    split <;> exact ⟨subset_rfl, rfl⟩
  | cons prog rest ih =>
    unfold fallbackLoop
    split
    · dsimp only
      split
      · split
        · exact ⟨subset_rfl, rfl⟩
        · refine ⟨(ih _ _).1.trans ?_, (ih _ _).2⟩
          exact Finset.erase_subset _ _
      · exact ⟨subset_rfl, rfl⟩
    · dsimp only
      split
      · constructor
        · intro q hq
          simp only [tryUnlinkRemove_active, doAttemptWait_active,
            Finset.mem_erase, Finset.mem_insert] at hq
          rcases hq with ⟨hne, h1 | h1⟩
          · exact absurd h1 hne
          · exact h1
        · simp [tryUnlinkRemove_piper, doAttemptWait_piper]
      · refine ⟨(ih _ _).1.trans ?_, (ih _ _).2.trans ?_⟩
        · intro q hq
          simp only [tryUnlinkRemove_active, doAttemptWait_active,
            Finset.mem_erase, Finset.mem_insert] at hq
          rcases hq with ⟨hne, h1 | h1⟩
          · exact absurd h1 hne
          · exact h1
        · simp [tryUnlinkRemove_piper, doAttemptWait_piper]

/-- Helper: `speak_fallback` only removes processes from the tracker and
never touches the engine field. -/
theorem speak_fallback_state (env : Env) (text : String) (s : St) :
    ((speak_fallback env text s).2).active ⊆ s.active ∧
    ((speak_fallback env text s).2).piper = s.piper := by
  unfold speak_fallback
  split
  · exact ⟨subset_rfl, rfl⟩
  · split
    next b s2 heq =>
      have h := fallbackLoop_state env text.length s.nextTmp
        ((if env.which "espeak" then ["espeak"] else [])
          ++ (if env.which "festival" then ["bash"] else []))
        none
        { s with nextTmp := s.nextTmp + 1,
                 temp_files := insert s.nextTmp s.temp_files,
                 fsTemp := insert s.nextTmp s.fsTemp,
                 trace := s.trace ++ [.mkTemp s.nextTmp] }
      rw [heq] at h
      exact ⟨h.1, h.2⟩
    next e s2 heq =>
      have h := fallbackLoop_state env text.length s.nextTmp
        ((if env.which "espeak" then ["espeak"] else [])
          ++ (if env.which "festival" then ["bash"] else []))
        none
        { s with nextTmp := s.nextTmp + 1,
                 temp_files := insert s.nextTmp s.temp_files,
                 fsTemp := insert s.nextTmp s.fsTemp,
                 trace := s.trace ++ [.mkTemp s.nextTmp] }
      rw [heq] at h
      exact ⟨h.1, h.2⟩

/-- Helper: the audio-player attempt loop only removes processes from the
tracker and never touches the engine field. -/
theorem playerLoop_state (env : Env) (n t : Nat) (cmds : List String)
    (lp : Option Nat) (s : St) :
    ((playerLoop env n t cmds lp s).2).active ⊆ s.active ∧
    ((playerLoop env n t cmds lp s).2).piper = s.piper := by
  induction cmds generalizing lp s with
  | nil => exact ⟨subset_rfl, rfl⟩
  | cons prog rest ih =>
    unfold playerLoop
    split
    · dsimp only
      split
      · exact ⟨subset_rfl, rfl⟩
      · refine ⟨(ih _ _).1.trans ?_, (ih _ _).2⟩
        exact Finset.erase_subset _ _
    · dsimp only
      split
      · constructor
        · intro q hq
          simp only [doAttemptWait_active, Finset.mem_erase, Finset.mem_insert] at hq
          rcases hq with ⟨hne, h1 | h1⟩
          · exact absurd h1 hne
          · exact h1
        · simp [doAttemptWait_piper]
      · refine ⟨(ih _ _).1.trans ?_, (ih _ _).2.trans ?_⟩
        · intro q hq
          simp only [doAttemptWait_active, Finset.mem_erase, Finset.mem_insert] at hq
          rcases hq with ⟨hne, h1 | h1⟩
          · exact absurd h1 hne
          · exact h1
        · simp [doAttemptWait_piper]

/-- Helper: the post-write phase of `speak` (read, play, fall back) only
removes processes from the tracker and never touches the engine field. -/
theorem speakWrite_state (env : Env) (text : String) (s : St) :
    ((speakWrite env text s).2).active ⊆ s.active ∧
    ((speakWrite env text s).2).piper = s.piper := by
  have hpp_a : (speakPostPoll env s).active = s.active := by
    unfold speakPostPoll
    split <;> rfl
  have hpp_p : (speakPostPoll env s).piper = s.piper := by
    unfold speakPostPoll
    split <;> rfl
  unfold speakWrite
  split
  · exact ⟨subset_rfl, rfl⟩
  · split
    · have h := speak_fallback_state env text (speakPostPoll env s)
      exact ⟨h.1.trans (le_of_eq hpp_a), h.2.trans hpp_p⟩
    · split
      next e s2 heq =>
        have h := playerLoop_state env text.length (speakPostPoll env s).nextTmp
          (playersFor env) none (mkAudioTemp (speakPostPoll env s))
        rw [heq] at h
        refine ⟨h.1.trans ?_, h.2.trans ?_⟩
        · show (mkAudioTemp (speakPostPoll env s)).active ⊆ s.active
          rw [show (mkAudioTemp (speakPostPoll env s)).active
              = (speakPostPoll env s).active from rfl, hpp_a]
        · show (mkAudioTemp (speakPostPoll env s)).piper = s.piper
          rw [show (mkAudioTemp (speakPostPoll env s)).piper
              = (speakPostPoll env s).piper from rfl, hpp_p]
      next success s2 heq =>
        have h := playerLoop_state env text.length (speakPostPoll env s).nextTmp
          (playersFor env) none (mkAudioTemp (speakPostPoll env s))
        rw [heq] at h
        have hsub : s2.active ⊆ s.active := by
          refine h.1.trans ?_
          show (mkAudioTemp (speakPostPoll env s)).active ⊆ s.active
          rw [show (mkAudioTemp (speakPostPoll env s)).active
              = (speakPostPoll env s).active from rfl, hpp_a]
        have hpip : s2.piper = s.piper := by
          refine h.2.trans ?_
          show (mkAudioTemp (speakPostPoll env s)).piper = s.piper
          rw [show (mkAudioTemp (speakPostPoll env s)).piper
              = (speakPostPoll env s).piper from rfl, hpp_p]
        split
        · constructor
          · rw [tryUnlinkRemove_active]
            exact hsub
          · rw [tryUnlinkRemove_piper]
            exact hpip
        · have hf := speak_fallback_state env text
            (tryUnlinkRemove (speakPostPoll env s).nextTmp s2)
          constructor
          · refine hf.1.trans ?_
            rw [tryUnlinkRemove_active]
            exact hsub
          · refine hf.2.trans ?_
            rw [tryUnlinkRemove_piper]
            exact hpip

/-- Helper: the `try` body of `speak` satisfies `SPrel`: every process it
registers other than a (re)started engine is deregistered again by the time
it finishes. -/
theorem speakTry_SP (env : Env) (text : String) (s : St) :
    SPrel s (speakTry env text s).2 := by
  unfold speakTry
  split
  · split
    · exact SPrel_trans (start_piper_SP env s)
        (SPrel_of_sub (speakWrite_state env text _).1 (speakWrite_state env text _).2)
    · exact SPrel_trans (start_piper_SP env s)
        (SPrel_of_sub (speak_fallback_state env text _).1 (speak_fallback_state env text _).2)
  · have hbump : SPrel s { s with pollCtr := s.pollCtr + 1 } :=
      SPrel_of_sub subset_rfl rfl
    split
    · exact SPrel_trans hbump
        (SPrel_of_sub (speakWrite_state env text _).1 (speakWrite_state env text _).2)
    · split
      · exact SPrel_trans (SPrel_trans hbump (start_piper_SP env _))
          (SPrel_of_sub (speakWrite_state env text _).1 (speakWrite_state env text _).2)
      · exact SPrel_trans (SPrel_trans hbump (start_piper_SP env _))
          (SPrel_of_sub (speak_fallback_state env text _).1 (speak_fallback_state env text _).2)

/-- Helper: the handler of `speak` does not touch the tracker or the
engine field. -/
theorem speakHandler_fields (e : Exc) (s : St) :
    (speakHandler e s).active = s.active ∧ (speakHandler e s).piper = s.piper := by
  unfold speakHandler
  split
  · exact ⟨rfl, rfl⟩
  · rw [tryUnlinkRemove_active, tryUnlinkRemove_piper]
    exact ⟨rfl, rfl⟩

/-- Helper: a whole `speak` call satisfies `SPrel`: at return, every
tracked process was either already tracked before the call (and was not the
engine) or is the engine process recorded at return. -/
theorem speakRun_SP (env : Env) (cfg : Cfg) (text : String) (s : St) :
    SPrel s (speakRun env cfg text s).2 := by
  unfold speakRun speak
  split
  · exact SPrel_refl s
  split
  · exact SPrel_refl s
  split
  · have hstart : SPrel s { (start_piper env s).2 with tmpPath := none } :=
      SPrel_trans (start_piper_SP env s) (SPrel_of_sub subset_rfl rfl)
    split
    next b s2 heq =>
      have h := speakTry_SP env text { (start_piper env s).2 with tmpPath := none }
      rw [heq] at h
      exact SPrel_trans hstart h
    next e s2 heq =>
      have h := speakTry_SP env text { (start_piper env s).2 with tmpPath := none }
      rw [heq] at h
      refine SPrel_trans (SPrel_trans hstart h) ?_
      refine SPrel_of_sub ?_ ?_
      · refine (speak_fallback_state env text (speakHandler e s2)).1.trans ?_
        rw [(speakHandler_fields e s2).1]
      · refine (speak_fallback_state env text (speakHandler e s2)).2.trans ?_
        rw [(speakHandler_fields e s2).2]
  · exact SPrel_trans (start_piper_SP env s)
      (SPrel_of_sub (speak_fallback_state env text _).1 (speak_fallback_state env text _).2)

/-- C2 (amended): on return from `speak`, every process in the Resource
Tracker was either already tracked before the call or is the long-lived
engine process recorded in `piper_process`; i.e. every cascade-attempt
process registered during the call has been removed again, but the engine
process spawned by the call remains tracked. -/
theorem c2_attempts_removed (env : Env) (cfg : Cfg) (text : String) (s : St)
    (pid : Nat) (h : pid ∈ (speakRun env cfg text s).2.active) :
    pid ∈ s.active ∨ (speakRun env cfg text s).2.piper = some pid := by
  rcases speakRun_SP env cfg text s pid h with ⟨h1, -⟩ | h2
  · exact Or.inl h1
  · exact Or.inr h2

/-- C2 witness for `c2_attempts_removed`. -/
theorem c2_attempts_removed_witness :
    0 ∈ st0.active ∨ (speakRun envC2 cfg0 "hi" st0).2.piper = some 0 :=
  c2_attempts_removed envC2 cfg0 "hi" st0 0 (by decide)

/-- C2 counterexample: a successful `speak` call that spawns the engine
(event `spawned 0 "piper"`) and returns with that process still in the
Resource Tracker — the engine process created during the call is not absent
at return, refuting the claim as stated. -/
theorem c2_cex :
    (speakRun envC2 cfg0 "hi" st0).1 = true ∧
    Ev.spawned 0 "piper" none ∈ (speakRun envC2 cfg0 "hi" st0).2.trace ∧
    0 ∈ (speakRun envC2 cfg0 "hi" st0).2.active := by
  refine ⟨rfl, by decide, by decide⟩

/-- Helper: `TW` is reflexive. -/
theorem TW_refl (n : Nat) (s : St) : TW n s s :=
  ⟨[], (List.append_nil _).symm, by simp⟩

/-- Helper: `TW` composes. -/
theorem TW_trans {n : Nat} {s1 s2 s3 : St} (h12 : TW n s1 s2) (h23 : TW n s2 s3) :
    TW n s1 s3 := by
  obtain ⟨t1, e1, o1⟩ := h12
  obtain ⟨t2, e2, o2⟩ := h23
  refine ⟨t1 ++ t2, ?_, ?_⟩
  · rw [e2, e1, List.append_assoc]
  · intro ev hev
    rcases List.mem_append.mp hev with h | h
    · exact o1 ev h
    · exact o2 ev h

/-- Helper: introduction for `TW` from an explicit appended suffix. -/
theorem TW_of_append {n : Nat} {s s' : St} (tl : List Ev)
    (h : s'.trace = s.trace ++ tl) (hok : ∀ ev ∈ tl, evOk n ev) : TW n s s' :=
  ⟨tl, h, hok⟩

/-- Helper: introduction for `TW` from an unchanged trace. -/
theorem TW_of_eq {n : Nat} {s s' : St} (h : s'.trace = s.trace) : TW n s s' :=
  ⟨[], by rw [h, List.append_nil], by simp⟩

/-- Helper: a spawn event is timeout-correct. -/
theorem evOk_spawned (n p : Nat) (prog : String) (tm : Option Nat) :
    evOk n (Ev.spawned p prog tm) := by
  intro pid q h
  simp at h

/-- Helper: a failed-spawn event is timeout-correct. -/
theorem evOk_spawnFailed (n : Nat) (prog : String) : evOk n (Ev.spawnFailed prog) := by
  intro pid q h
  simp at h

/-- Helper: a temp-file-creation event is timeout-correct. -/
theorem evOk_mkTemp (n t : Nat) : evOk n (Ev.mkTemp t) := by
  intro pid q h
  simp at h

/-- Helper: an unlink event is timeout-correct. -/
theorem evOk_unlinked (n t : Nat) : evOk n (Ev.unlinked t) := by
  intro pid q h
  simp at h

/-- Helper: a failed-unlink event is timeout-correct. -/
theorem evOk_unlinkFailed (n t : Nat) : evOk n (Ev.unlinkFailed t) := by
  intro pid q h
  simp at h

/-- Helper: a kill event is timeout-correct. -/
theorem evOk_killed (n p : Nat) : evOk n (Ev.killed p) := by
  intro pid q h
  simp at h

/-- Helper: a cascade wait event carrying the cascade timeout formula is
timeout-correct. -/
theorem evOk_wait (n p : Nat) : evOk n (Ev.attemptWait p (timeoutFor n)) := by
  intro pid q h
  cases h
  rfl

/-- Helper: membership dispatch over a one-event suffix. -/
theorem evOk_list_singleton {n : Nat} {ev0 : Ev} (h : evOk n ev0) :
    ∀ ev ∈ [ev0], evOk n ev := by
  intro ev hev
  rw [List.mem_singleton] at hev
  subst hev
  exact h

/-- Helper: membership dispatch over a two-event suffix. -/
theorem evOk_list_pair {n : Nat} {e1 e2 : Ev} (h1 : evOk n e1) (h2 : evOk n e2) :
    ∀ ev ∈ [e1, e2], evOk n ev := by
  intro ev hev
  rcases List.mem_cons.mp hev with rfl | hev
  · exact h1
  · rw [List.mem_singleton] at hev
    subst hev
    exact h2

/-- Helper: `cleanup_piper` appends at most a kill event. -/
theorem cleanup_piper_TW (n : Nat) (env : Env) (s : St) :
    TW n s (cleanup_piper env s) := by
  unfold cleanup_piper
  split
  · exact TW_refl n s
  next x pid h =>
    split
    · split
      · exact TW_of_append [Ev.killed pid] rfl (evOk_list_singleton (evOk_killed n pid))
      · exact TW_of_eq rfl
    · exact TW_of_eq rfl

/-- Helper: `start_piper_fresh` appends only spawn events. -/
theorem start_piper_fresh_TW (n : Nat) (env : Env) (s : St) :
    TW n s (start_piper_fresh env s).2 := by
  have h12 : TW n s ((get_piper_model_path env (cleanup_piper env s)).2) :=
    TW_trans (cleanup_piper_TW n env s)
      (TW_of_eq (get_piper_model_path_fields env (cleanup_piper env s)).2.2)
  unfold start_piper_fresh
  split
  next x s3 heq =>
    rw [heq] at h12
    exact TW_trans h12 (TW_of_eq rfl)
  next x mdl s3 heq =>
    rw [heq] at h12
    split
    · split
      · exact TW_trans h12 (TW_of_append [Ev.spawned s3.spawnCtr "piper" none] rfl
          (evOk_list_singleton (evOk_spawned n s3.spawnCtr "piper" none)))
      · exact TW_trans h12 (TW_of_append [Ev.spawnFailed "piper"] rfl
          (evOk_list_singleton (evOk_spawnFailed n "piper")))
    · exact TW_trans h12 (TW_of_eq rfl)

/-- Helper: `start_piper` appends only spawn events. -/
theorem start_piper_TW (n : Nat) (env : Env) (s : St) :
    TW n s (start_piper env s).2 := by
  unfold start_piper
  split
  next x pid h =>
    split
    · exact TW_of_eq rfl
    · exact TW_trans (@TW_of_eq n s { s with pollCtr := s.pollCtr + 1 } rfl)
        (start_piper_fresh_TW n env _)
  next h => exact start_piper_fresh_TW n env s

/-- Helper: a cascade wait appends its wait event (carrying the cascade
timeout formula) and possibly a kill event. -/
theorem doAttemptWait_TW (n : Nat) (env : Env) (pid : Nat) (s : St) :
    TW n s (doAttemptWait env pid (timeoutFor n) s) := by
  unfold doAttemptWait
  split
  · exact TW_of_append [Ev.attemptWait pid (timeoutFor n), Ev.killed pid] rfl
      (evOk_list_pair (evOk_wait n pid) (evOk_killed n pid))
  · exact TW_of_append [Ev.attemptWait pid (timeoutFor n)] rfl
      (evOk_list_singleton (evOk_wait n pid))

/-- Helper: the guarded unlink appends only unlink events. -/
theorem tryUnlinkRemove_TW (n : Nat) (t : Nat) (s : St) :
    TW n s (tryUnlinkRemove t s) := by
  unfold tryUnlinkRemove
  split
  · exact TW_of_append [Ev.unlinked t] rfl (evOk_list_singleton (evOk_unlinked n t))
  · exact TW_of_append [Ev.unlinkFailed t] rfl (evOk_list_singleton (evOk_unlinkFailed n t))

/-- Helper: every cascade wait in the text-fallback attempt loop uses the
cascade timeout for `n` (its `textLen` argument). -/
theorem fallbackLoop_TW (env : Env) (n t : Nat) (cmds : List String)
    (lp : Option Nat) (s : St) :
    TW n s ((fallbackLoop env n t cmds lp s).2) := by
  induction cmds generalizing lp s with
  | nil =>
    unfold fallbackLoop
    split
    · exact TW_of_append [Ev.unlinked t] rfl (evOk_list_singleton (evOk_unlinked n t))
    · exact TW_of_eq rfl
  | cons prog rest ih =>
    unfold fallbackLoop
    split
    · dsimp only
      have hsf : TW n s { s with spawnCtr := s.spawnCtr + 1,
                                 trace := s.trace ++ [Ev.spawnFailed prog] } :=
        TW_of_append [Ev.spawnFailed prog] rfl
          (evOk_list_singleton (evOk_spawnFailed n prog))
      split
      · split
        · exact hsf
        · exact TW_trans (TW_trans hsf (TW_of_eq rfl)) (ih _ _)
      · exact hsf
    · dsimp only
      have h1 : TW n s { s with spawnCtr := s.spawnCtr + 1,
                                active := insert s.spawnCtr s.active,
                                trace := s.trace ++ [Ev.spawned s.spawnCtr prog (some t)] } :=
        TW_of_append [Ev.spawned s.spawnCtr prog (some t)] rfl
          (evOk_list_singleton (evOk_spawned n s.spawnCtr prog (some t)))
      have h2 := doAttemptWait_TW n env s.spawnCtr
        { s with spawnCtr := s.spawnCtr + 1,
                 active := insert s.spawnCtr s.active,
                 trace := s.trace ++ [Ev.spawned s.spawnCtr prog (some t)] }
      have h3 := tryUnlinkRemove_TW n t
        (doAttemptWait env s.spawnCtr (timeoutFor n)
          { s with spawnCtr := s.spawnCtr + 1,
                   active := insert s.spawnCtr s.active,
                   trace := s.trace ++ [Ev.spawned s.spawnCtr prog (some t)] })
      have h123 := TW_trans (TW_trans h1 h2) h3
      split
      · exact TW_trans h123 (TW_of_eq rfl)
      · exact TW_trans (TW_trans h123 (TW_of_eq rfl)) (ih _ _)

/-- Helper: every cascade wait in `speak_fallback` uses the cascade timeout
for the length of its text. -/
theorem speak_fallback_TW (env : Env) (text : String) (s : St) :
    TW text.length s ((speak_fallback env text s).2) := by
  unfold speak_fallback
  split
  · exact TW_of_eq rfl
  · split
    next b s2 heq =>
      have h := fallbackLoop_TW env text.length s.nextTmp
        ((if env.which "espeak" then ["espeak"] else [])
          ++ (if env.which "festival" then ["bash"] else []))
        none
        { s with nextTmp := s.nextTmp + 1,
                 temp_files := insert s.nextTmp s.temp_files,
                 fsTemp := insert s.nextTmp s.fsTemp,
                 trace := s.trace ++ [.mkTemp s.nextTmp] }
      rw [heq] at h
      exact TW_trans (TW_of_append [Ev.mkTemp s.nextTmp] rfl
        (evOk_list_singleton (evOk_mkTemp text.length s.nextTmp))) h
    next e s2 heq =>
      have h := fallbackLoop_TW env text.length s.nextTmp
        ((if env.which "espeak" then ["espeak"] else [])
          ++ (if env.which "festival" then ["bash"] else []))
        none
        { s with nextTmp := s.nextTmp + 1,
                 temp_files := insert s.nextTmp s.temp_files,
                 fsTemp := insert s.nextTmp s.fsTemp,
                 trace := s.trace ++ [.mkTemp s.nextTmp] }
      rw [heq] at h
      exact TW_trans (TW_trans (TW_of_append [Ev.mkTemp s.nextTmp] rfl
        (evOk_list_singleton (evOk_mkTemp text.length s.nextTmp))) h) (TW_of_eq rfl)

/-- Helper: every cascade wait in the audio-player attempt loop uses the
cascade timeout for `n` (its `textLen` argument). -/
theorem playerLoop_TW (env : Env) (n t : Nat) (cmds : List String)
    (lp : Option Nat) (s : St) :
    TW n s ((playerLoop env n t cmds lp s).2) := by
  induction cmds generalizing lp s with
  | nil => exact TW_refl n s
  | cons prog rest ih =>
    unfold playerLoop
    split
    · dsimp only
      have hsf : TW n s { s with spawnCtr := s.spawnCtr + 1,
                                 trace := s.trace ++ [Ev.spawnFailed prog] } :=
        TW_of_append [Ev.spawnFailed prog] rfl
          (evOk_list_singleton (evOk_spawnFailed n prog))
      split
      · exact hsf
      · exact TW_trans (TW_trans hsf (TW_of_eq rfl)) (ih _ _)
    · dsimp only
      have h1 : TW n s { s with spawnCtr := s.spawnCtr + 1,
                                active := insert s.spawnCtr s.active,
                                trace := s.trace ++ [Ev.spawned s.spawnCtr prog (some t)] } :=
        TW_of_append [Ev.spawned s.spawnCtr prog (some t)] rfl
          (evOk_list_singleton (evOk_spawned n s.spawnCtr prog (some t)))
      have h2 := doAttemptWait_TW n env s.spawnCtr
        { s with spawnCtr := s.spawnCtr + 1,
                 active := insert s.spawnCtr s.active,
                 trace := s.trace ++ [Ev.spawned s.spawnCtr prog (some t)] }
      have h12 := TW_trans h1 h2
      split
      · exact TW_trans h12 (TW_of_eq rfl)
      · exact TW_trans (TW_trans h12 (TW_of_eq rfl)) (ih _ _)

/-- Helper: the poll of the reader thread does not touch the trace. -/
theorem speakPostPoll_trace (env : Env) (s : St) :
    (speakPostPoll env s).trace = s.trace := by
  unfold speakPostPoll
  split <;> rfl

/-- Helper: every cascade wait in the post-write phase of `speak` uses the
cascade timeout for the length of its text. -/
theorem speakWrite_TW (env : Env) (text : String) (s : St) :
    TW text.length s ((speakWrite env text s).2) := by
  have hpp : TW text.length s (speakPostPoll env s) :=
    TW_of_eq (speakPostPoll_trace env s)
  unfold speakWrite
  split
  · exact TW_refl _ s
  · split
    · exact TW_trans hpp (speak_fallback_TW env text (speakPostPoll env s))
    · have hmt : TW text.length (speakPostPoll env s)
          (mkAudioTemp (speakPostPoll env s)) :=
        TW_of_append [Ev.mkTemp (speakPostPoll env s).nextTmp] rfl
          (evOk_list_singleton (evOk_mkTemp text.length (speakPostPoll env s).nextTmp))
      split
      next e s2 heq =>
        have h := playerLoop_TW env text.length (speakPostPoll env s).nextTmp
          (playersFor env) none (mkAudioTemp (speakPostPoll env s))
        rw [heq] at h
        exact TW_trans (TW_trans hpp hmt) h
      next success s2 heq =>
        have h := playerLoop_TW env text.length (speakPostPoll env s).nextTmp
          (playersFor env) none (mkAudioTemp (speakPostPoll env s))
        rw [heq] at h
        have hto : TW text.length s s2 := TW_trans (TW_trans hpp hmt) h
        split
        · exact TW_trans hto (tryUnlinkRemove_TW text.length _ s2)
        · exact TW_trans (TW_trans hto (tryUnlinkRemove_TW text.length _ s2))
            (speak_fallback_TW env text _)

/-- Helper: every cascade wait in the `try` body of `speak` uses the
cascade timeout for the length of its text. -/
theorem speakTry_TW (env : Env) (text : String) (s : St) :
    TW text.length s ((speakTry env text s).2) := by
  unfold speakTry
  split
  · split
    · exact TW_trans (start_piper_TW text.length env s) (speakWrite_TW env text _)
    · exact TW_trans (start_piper_TW text.length env s) (speak_fallback_TW env text _)
  · have hbump : TW text.length s { s with pollCtr := s.pollCtr + 1 } :=
      TW_of_eq rfl
    split
    · exact TW_trans hbump (speakWrite_TW env text _)
    · split
      · exact TW_trans (TW_trans hbump (start_piper_TW text.length env _))
          (speakWrite_TW env text _)
      · exact TW_trans (TW_trans hbump (start_piper_TW text.length env _))
          (speak_fallback_TW env text _)

/-- Helper: the `speak` handler appends only unlink events. -/
theorem speakHandler_TW (n : Nat) (e : Exc) (s : St) :
    TW n s (speakHandler e s) := by
  unfold speakHandler
  split
  · exact TW_of_eq rfl
  · exact TW_trans (@TW_of_eq n s { s with last_tts_error := some (excMsg e) } rfl)
      (tryUnlinkRemove_TW n _ _)

/-- Helper: every cascade wait event appended by a whole `speak` call uses
the cascade timeout for the length of its text. -/
theorem speakRun_TW (env : Env) (cfg : Cfg) (text : String) (s : St) :
    TW text.length s ((speakRun env cfg text s).2) := by
  unfold speakRun speak
  split
  · exact TW_refl _ s
  split
  · exact TW_refl _ s
  split
  · have hstart : TW text.length s { (start_piper env s).2 with tmpPath := none } :=
      TW_trans (start_piper_TW text.length env s) (TW_of_eq rfl)
    split
    next b s2 heq =>
      have h := speakTry_TW env text { (start_piper env s).2 with tmpPath := none }
      rw [heq] at h
      exact TW_trans hstart h
    next e s2 heq =>
      have h := speakTry_TW env text { (start_piper env s).2 with tmpPath := none }
      rw [heq] at h
      exact TW_trans (TW_trans (TW_trans hstart h) (speakHandler_TW text.length e s2))
        (speak_fallback_TW env text _)
  · exact TW_trans (start_piper_TW text.length env s) (speak_fallback_TW env text _)

/-- C8 (confirmed): the cascade timeout is
`min(30, max(5, 0.1 × len(text))) = clamp(5, 30, len(text)/10)`, with the
claimed instances at lengths 1000, 10 and 100; and every cascade wait event
appended to the trace by a `speak` call (both the playback and the
text-fallback cascade) carries exactly this timeout for the text of the call. -/
theorem c8_attempt_timeout :
    (∀ n : Nat, timeoutFor n = min 30 (max 5 ((n : ℚ) / 10))) ∧
    timeoutFor 1000 = 30 ∧ timeoutFor 10 = 5 ∧ timeoutFor 100 = 10 ∧
    (∀ env cfg text s ev, ev ∈ (speakRun env cfg text s).2.trace →
      ev ∈ s.trace ∨ ∀ pid q, ev = Ev.attemptWait pid q → q = timeoutFor text.length) := by
  refine ⟨?_, by norm_num [timeoutFor], by norm_num [timeoutFor],
    by norm_num [timeoutFor], ?_⟩
  · intro n
    unfold timeoutFor
    rw [mul_one_div]
  · intro env cfg text s ev hev
    obtain ⟨tl, htr, hok⟩ := speakRun_TW env cfg text s
    rw [htr] at hev
    rcases List.mem_append.mp hev with h | h
    · exact Or.inl h
    · exact Or.inr (hok ev h)

/-- C8 witness for `c8_attempt_timeout`: the wait event of the `aplay`
attempt in a concrete run is timeout-correct. -/
theorem c8_attempt_timeout_witness :
    Ev.attemptWait 1 (timeoutFor 2) ∈ st0.trace ∨
    ∀ pid q, Ev.attemptWait 1 (timeoutFor 2) = Ev.attemptWait pid q →
      q = timeoutFor ("hi").length :=
  c8_attempt_timeout.2.2.2.2 envC2 cfg0 "hi" st0 (Ev.attemptWait 1 (timeoutFor 2)) (by
    have htr : (speakRun envC2 cfg0 "hi" st0).2.trace =
        [Ev.spawned 0 "piper" none, Ev.mkTemp 0, Ev.spawned 1 "aplay" (some 0),
         Ev.attemptWait 1 (timeoutFor 2), Ev.unlinked 0] := rfl
    rw [htr]
    simp)

/-- C9 (confirmed): `stop` empties both tracking sets, and a second `stop`
immediately after is a complete no-op: it returns the very same state (so
it observes an empty tracker, performs no effect, emits no event, and in
the total, exception-free embedding it raises no error). -/
theorem c9_stop_idempotent (env : Env) (s : St) :
    (stop env s).active = ∅ ∧ (stop env s).temp_files = ∅ ∧
    stop env (stop env s) = stop env s := by
  obtain ⟨h1, h2, h3⟩ := stop_clears env s
  exact ⟨h2, h3, stop_fix env _ h1 h2 h3⟩

end Grace
